import Mathlib

/-!
# Shallow embedding of the CTK DICOM task scheduler core

This file embeds, in Lean 4, the parts of the CTK DICOM scheduler that the
verification claims are about:

* `ctkAbstractTask` (Libs/Core/ctkAbstractTask.cpp) — lifecycle flags;
* `ctkDICOMTaskResults` (Libs/DICOM/Core/ctkDICOMTaskResults.cpp) — result
  value object and its `deepCopy`;
* `ctkDICOMQueryTask::run` / `ctkDICOMRetrieveTask::run` — the signal
  discipline of the worker entry points;
* `ctkDICOMQuery::applyFilters` (Libs/DICOM/Core/ctkDICOMQuery.cpp);
* `ctkDICOMTaskPool` and `ctkDICOMPoolManager` — registry operations
  (`getNthServer`, `stopTasks`, `taskCanceled`, `taskRetry`, the CMOVE→proxy
  chaining branch of `taskFinished`);
* `ctkDICOMSeriesItemWidgetPrivate::getDICOMCenterFrameFromInstances`
  (Libs/DICOM/Widgets/ctkDICOMSeriesItemWidget.cpp).

Qt machinery is modelled explicitly: `QVariant` string/string-list values with
Qt's documented conversion semantics, `QMap` as association lists whose key
iteration is in ascending key order, DCMTK `DcmDataset` objects as cells of an
explicit heap (so that aliasing versus deep copying is observable), and QUuid
generation as a monotone counter (fresh values never collide with previously
generated ones, which is the property the scheduler relies on).
-/

namespace CTK

/-! ## Qt and DCMTK modelling primitives -/

/-- Priorities actually passed to `QThreadPool::start` by the scheduler. -/
inductive QPriority where
  | low
  | normal
  | high
  deriving DecidableEq, Repr

/-- A `QVariant` as used by the scheduler's filter map: it holds either a
`QString` or a `QStringList`. -/
inductive QVariant where
  | str (s : String)
  | strList (l : List String)
  deriving DecidableEq, Repr

/-- Qt semantics of `QVariant::toString`: a `QString` converts to itself; a
`QStringList` converts to a `QString` only when it contains exactly one
element, otherwise the result is the empty string. -/
def QVariant.toQString : QVariant → String
  | .str s => s
  | .strList l => if l.length = 1 then l.headI else ""

/-- Qt semantics of `QVariant::toStringList`: a `QString` becomes a
one-element list; a `QStringList` converts to itself. -/
def QVariant.toQStringList : QVariant → List String
  | .str s => [s]
  | .strList l => l

/-- Value of a non-empty run of decimal digits; `none` as soon as a
non-digit appears. -/
def decDigitsVal : List Char → Nat → Option Nat
  | [], acc => some acc
  | c :: cs, acc =>
      if '0' ≤ c ∧ c ≤ '9' then
        decDigitsVal cs (acc * 10 + (c.toNat - '0'.toNat))
      else none

/-- Parse a non-empty digit string. -/
def decNat? (cs : List Char) : Option Nat :=
  if cs = [] then none else decDigitsVal cs 0

/-- `QString::toInt`: the whole string must be an optional sign followed by
decimal digits; every other input converts to 0. -/
def qStringToInt (s : String) : Int :=
  match s.data with
  | '-' :: cs =>
      match decNat? cs with
      | some n => -(n : Int)
      | none => 0
  | '+' :: cs =>
      match decNat? cs with
      | some n => (n : Int)
      | none => 0
  | cs =>
      match decNat? cs with
      | some n => (n : Int)
      | none => 0

/-- Does the first character list begin the second one? -/
def charListLeads : List Char → List Char → Bool
  | [], _ => true
  | _ :: _, [] => false
  | a :: as, b :: bs => a = b && charListLeads as bs

/-- Does `sub` occur contiguously inside the second list? -/
def charListHasInfix (sub : List Char) : List Char → Bool
  | [] => charListLeads sub []
  | c :: cs => charListLeads sub (c :: cs) || charListHasInfix sub cs

/-- `QString::contains(sub)`. -/
def qStringContains (s sub : String) : Bool :=
  charListHasInfix sub.data s.data

/-- The attribute content of a DCMTK dataset: tag name / value pairs
(`putAndInsertString` replaces an existing tag). -/
abbrev DcmContent := List (String × String)

/-- `DcmItem::putAndInsertString`: overwrite the tag if present, else add. -/
def dcmPut (ds : DcmContent) (tag v : String) : DcmContent :=
  (ds.filter (fun p => p.1 ≠ tag)) ++ [(tag, v)]

/-- Heap of live DCMTK dataset objects; references are allocation indices.
Mutation of one cell must not affect datasets held through other
references — that is the deep-copy obligation. -/
structure DcmHeap where
  cells : List DcmContent
  deriving DecidableEq, Repr

/-- `new DcmDataset(...)`: allocate a fresh cell, returning its reference. -/
def DcmHeap.alloc (h : DcmHeap) (c : DcmContent) : DcmHeap × Nat :=
  (⟨h.cells ++ [c]⟩, h.cells.length)

/-- In-place mutation of the dataset behind reference `r`. -/
def DcmHeap.write (h : DcmHeap) (r : Nat) (c : DcmContent) : DcmHeap :=
  ⟨h.cells.set r c⟩

/-- Dereference `r` (reads the current content of the cell). -/
def DcmHeap.read (h : DcmHeap) (r : Nat) : DcmContent :=
  h.cells.getD r []

/-- Result of a C++ expression that may hit undefined behaviour (such as
`QList::operator[]` with an out-of-range index). -/
inductive CxxResult (α : Type) where
  | ok (a : α)
  | undefinedBehaviour
  deriving DecidableEq, Repr

/-- `QList::operator[]` with an `int` index: well-defined only for
`0 ≤ i < size`; any other index is undefined behaviour. -/
def qListIndex {α : Type} (l : List α) (i : Int) : CxxResult α :=
  if h : 0 ≤ i ∧ i.toNat < l.length then .ok (l.get ⟨i.toNat, h.2⟩)
  else .undefinedBehaviour

/-- Insert-or-overwrite into a `QMap<int, QString>` model (association list;
keys are read back in ascending order via an explicit sort). -/
def qmapSetInt (m : List (Int × String)) (k : Int) (v : String) :
    List (Int × String) :=
  (m.filter (fun p => p.1 ≠ k)) ++ [(k, v)]

/-- `QMap<int, QString>::operator[]` on the read side: the stored value, or a
default-constructed string when absent. -/
def qmapGetInt (m : List (Int × String)) (k : Int) : String :=
  ((m.find? (fun p => p.1 = k)).map (fun p => p.2)).getD ""

/-- Insert-or-overwrite into a `QMap<QString, ·>` model. -/
def qmapSetStr {α : Type} (m : List (String × α)) (k : String) (v : α) :
    List (String × α) :=
  (m.filter (fun p => p.1 ≠ k)) ++ [(k, v)]

/-! ## `ctkAbstractTask` (Libs/Core/ctkAbstractTask.cpp) -/

/-- The mutable state of a `ctkAbstractTask`: the `Stop`, `Running`,
`Finished` flags, the task UID and the retry counter.  Task UIDs are
modelled as naturals drawn from a monotone counter (see
`generateUniqueTaskUID` below). -/
structure ctkAbstractTask where
  Stop : Bool
  Running : Bool
  Finished : Bool
  TaskUID : Nat
  NumberOfRetry : Int
  deriving DecidableEq, Repr

/-- The `ctkAbstractTask` constructor. -/
def ctkAbstractTask.init : ctkAbstractTask :=
  { Stop := false, Running := false, Finished := false,
    TaskUID := 0, NumberOfRetry := 0 }

/-- `ctkAbstractTask::setStop`. -/
def ctkAbstractTask.setStop (t : ctkAbstractTask) (stop : Bool) :
    ctkAbstractTask :=
  { t with Stop := stop }

/-- `ctkAbstractTask::setIsFinished`: setting `Finished` to true while the
task is running also clears `Running`. -/
def ctkAbstractTask.setIsFinished (t : ctkAbstractTask) (finished : Bool) :
    ctkAbstractTask :=
  let t := if finished && t.Running then { t with Running := false } else t
  { t with Finished := finished }

/-- `ctkAbstractTask::setIsRunning`. -/
def ctkAbstractTask.setIsRunning (t : ctkAbstractTask) (running : Bool) :
    ctkAbstractTask :=
  { t with Running := running }

/-- `ctkAbstractTask::setNumberOfRetry`. -/
def ctkAbstractTask.setNumberOfRetry (t : ctkAbstractTask) (n : Int) :
    ctkAbstractTask :=
  { t with NumberOfRetry := n }

/-- `ctkAbstractTask::setTaskUID`. -/
def ctkAbstractTask.setTaskUID (t : ctkAbstractTask) (uid : Nat) :
    ctkAbstractTask :=
  { t with TaskUID := uid }

/-- One invocation of a flag setter on a `ctkAbstractTask`. -/
inductive TaskFlagOp where
  | setStop (b : Bool)
  | setIsRunning (b : Bool)
  | setIsFinished (b : Bool)
  deriving DecidableEq, Repr

/-- Apply one flag operation. -/
def applyTaskFlagOp (t : ctkAbstractTask) : TaskFlagOp → ctkAbstractTask
  | .setStop b => t.setStop b
  | .setIsRunning b => t.setIsRunning b
  | .setIsFinished b => t.setIsFinished b

/-- Apply a sequence of flag operations, left to right. -/
def applyTaskFlagOps (t : ctkAbstractTask) : List TaskFlagOp → ctkAbstractTask
  | [] => t
  | op :: ops => applyTaskFlagOps (applyTaskFlagOp t op) ops

/-- A sequence of flag operations in which `setIsRunning(true)` is only ever
invoked while the task is not finished (every real execution path in the
repository satisfies this: `run()` sets `Running` once, at entry, before any
`setIsFinished(true)`). -/
def noRunAfterFinish (t : ctkAbstractTask) : List TaskFlagOp → Bool
  | [] => true
  | op :: ops =>
      ((op ≠ TaskFlagOp.setIsRunning true) || !t.Finished) &&
      noRunAfterFinish (applyTaskFlagOp t op) ops

/-! ## `ctkDICOMServer`

The `ctkDICOMServer` compiled against by the scheduler sources.  The copy of
`ctkDICOMServer.h/.cpp` under `Libs/DICOM/Core` is an older revision that
lacks `retrieveProtocol`, `queryRetrieveEnabled`, `storageEnabled`,
`connectionTimeout` and `proxyServer`, all of which the scheduler calls; those
fields are modelled from the spec (§3 ServerDescriptor). -/

/-- `retrieveProtocol ∈ {CGET, CMOVE}` (spec §3). -/
inductive RetrieveProtocol where
  | CGET
  | CMOVE
  deriving DecidableEq, Repr

/-- Modelled from the spec: the ServerDescriptor of §3.  The fields present
in the in-tree `ctkDICOMServer` (`connectionName`, AE titles, host, port,
`moveDestinationAETitle`, `keepAssociationOpen`) keep their source meaning;
`retrieveProtocol`, `queryRetrieveEnabled`, `storageEnabled` and the optional
`proxyServer` (used for CMOVE→proxy-CGET chaining) come from the spec. -/
inductive ctkDICOMServer where
  | mk
      (connectionName : String)
      (callingAETitle : String)
      (calledAETitle : String)
      (host : String)
      (port : Int)
      (retrieveProtocol : RetrieveProtocol)
      (moveDestinationAETitle : String)
      (keepAssociationOpen : Bool)
      (queryRetrieveEnabled : Bool)
      (storageEnabled : Bool)
      (proxyServer : Option ctkDICOMServer)

/-- `ctkDICOMServer::connectionName`. -/
def ctkDICOMServer.connectionName : ctkDICOMServer → String
  | .mk c _ _ _ _ _ _ _ _ _ _ => c

/-- `ctkDICOMServer::retrieveProtocol`. -/
def ctkDICOMServer.retrieveProtocol : ctkDICOMServer → RetrieveProtocol
  | .mk _ _ _ _ _ p _ _ _ _ _ => p

/-- `ctkDICOMServer::queryRetrieveEnabled`. -/
def ctkDICOMServer.queryRetrieveEnabled : ctkDICOMServer → Bool
  | .mk _ _ _ _ _ _ _ _ q _ _ => q

/-- `ctkDICOMServer::proxyServer`. -/
def ctkDICOMServer.proxyServer : ctkDICOMServer → Option ctkDICOMServer
  | .mk _ _ _ _ _ _ _ _ _ _ pr => pr

/-! ## `ctkDICOMTaskResults` (Libs/DICOM/Core/ctkDICOMTaskResults.cpp) -/

/-- `ctkDICOMTaskResults::TaskType` (values per the scheduler sources and
spec §3). -/
inductive TaskType where
  | FileIndexing
  | QueryPatients
  | QueryStudies
  | QuerySeries
  | QueryInstances
  | RetrieveSOPInstance
  | RetrieveSeries
  deriving DecidableEq, Repr

/-- The fields of `ctkDICOMTaskResultsPrivate`; defaults are the constructor
values.  `Dataset` and the values of `CtkItemsMap` are references into a
`DcmHeap` (the `QSharedPointer<ctkDICOMItem>` payloads). -/
structure ctkDICOMTaskResults where
  FilePath : String := ""
  CopyFile : Bool := false
  OverwriteExistingDataset : Bool := false
  TypeOfTask : TaskType := .FileIndexing
  TaskUID : String := ""
  PatientID : String := ""
  StudyInstanceUID : String := ""
  SeriesInstanceUID : String := ""
  SOPInstanceUID : String := ""
  ConnectionName : String := ""
  Dataset : Option Nat := none
  CtkItemsMap : List (String × Nat) := []
  deriving DecidableEq, Repr

/-- `ctkDICOMTaskResults::setFilePath`: stores the path; when the path does
not denote a remote placeholder (`server://…`) and is non-empty it
additionally loads a dataset from the file (`InitializeFromFile`), modelled
by allocating a fresh cell with the file's content under the ambient
filesystem `fs`. -/
def ctkDICOMTaskResults.setFilePath (fs : String → DcmContent) (h : DcmHeap)
    (tr : ctkDICOMTaskResults) (filePath : String) :
    DcmHeap × ctkDICOMTaskResults :=
  let tr := { tr with FilePath := filePath }
  if qStringContains tr.FilePath "server://" || tr.FilePath = "" then (h, tr)
  else
    let (h, r) := h.alloc (fs filePath)
    (h, { tr with Dataset := some r })

/-- `ctkDICOMTaskResults::setDataset` (with `takeOwnership`): a null dataset
is ignored; otherwise the task result now holds the given object. -/
def ctkDICOMTaskResults.setDataset (tr : ctkDICOMTaskResults)
    (dataset : Option Nat) : ctkDICOMTaskResults :=
  match dataset with
  | none => tr
  | some r => { tr with Dataset := some r }

/-- `ctkDICOMTaskResults::setDatasetsMap` (with `takeOwnership`): inserts
every non-null entry of the given map into `CtkItemsMap`. -/
def ctkDICOMTaskResults.setDatasetsMap (tr : ctkDICOMTaskResults)
    (datasetsMap : List (String × Nat)) : ctkDICOMTaskResults :=
  { tr with CtkItemsMap :=
      datasetsMap.foldl (fun m kv => qmapSetStr m kv.1 kv.2) tr.CtkItemsMap }

/-- `ctkDICOMTaskResults::datasetsMap`: rebuilds a `SOPInstanceUID → dataset`
map by reading the `SOPInstanceUID` attribute out of each stored dataset. -/
def ctkDICOMTaskResults.datasetsMap (h : DcmHeap)
    (tr : ctkDICOMTaskResults) : List (String × Nat) :=
  tr.CtkItemsMap.foldl
    (fun m kv =>
      let content := h.read kv.2
      let sop := (content.lookup "DCM_SOPInstanceUID").getD ""
      qmapSetStr m sop kv.2)
    []

/-- `ctkDICOMTaskResults::deepCopy(node)`, translated line by line from
ctkDICOMTaskResults.cpp.  Note that the source passes `node->filePath()` to
`setTaskUID`; the translation keeps that behaviour.  Dataset payloads are
deep-copied: for each of `node`'s datasets a fresh `DcmDataset` is allocated
(`new DcmDataset` + `copyFrom`). -/
def ctkDICOMTaskResults.deepCopy (fs : String → DcmContent) (h : DcmHeap)
    (this node : ctkDICOMTaskResults) : DcmHeap × ctkDICOMTaskResults :=
  let (h, this) := ctkDICOMTaskResults.setFilePath fs h this node.FilePath
  let this := { this with
    CopyFile := node.CopyFile,
    OverwriteExistingDataset := node.OverwriteExistingDataset,
    TypeOfTask := node.TypeOfTask,
    TaskUID := node.FilePath,
    PatientID := node.PatientID,
    StudyInstanceUID := node.StudyInstanceUID,
    SeriesInstanceUID := node.SeriesInstanceUID,
    SOPInstanceUID := node.SOPInstanceUID,
    ConnectionName := node.ConnectionName }
  let (h, this) :=
    match node.Dataset with
    | some r =>
        let (h, nr) := h.alloc (h.read r)
        (h, this.setDataset (some nr))
    | none => (h, this)
  let nodeItems := ctkDICOMTaskResults.datasetsMap h node
  if nodeItems.length ≠ 0 then
    let (h, dcmItems) := nodeItems.foldl
      (fun (acc : DcmHeap × List (String × Nat)) kv =>
        let (h, m) := acc
        let content := h.read kv.2
        let (h, nr) := h.alloc content
        let sop := (content.lookup "DCM_SOPInstanceUID").getD ""
        (h, qmapSetStr m sop nr))
      (h, [])
    (h, this.setDatasetsMap dcmItems)
  else
    (h, this)

/-! ## `ctkDICOMQueryTask` and `ctkDICOMRetrieveTask` -/

/-- `ctkDICOMQueryTask::DICOMLevel`. -/
inductive QueryDICOMLevel where
  | Patients
  | Studies
  | Series
  | Instances
  deriving DecidableEq, Repr

/-- `ctkDICOMRetrieveTask::DICOMLevel`. -/
inductive RetrieveDICOMLevel where
  | Studies
  | Series
  | Instances
  deriving DecidableEq, Repr

/-- `ctkDICOMRetrieve::RetrieveType` — the type of the last retrieve
operation performed by a `ctkDICOMRetrieve` driver.  The driver class itself
is not part of the scheduler sources; modelled from the spec: the driver
performs `getStudy/getSeries/getSOPInstance` operations, and a freshly
constructed driver has performed none of them (`RetrieveNone`). -/
inductive RetrieveType where
  | RetrieveNone
  | RetrieveStudy
  | RetrieveSeries
  | RetrieveSOPInstance
  deriving DecidableEq, Repr

/-- `ctkDICOMQueryTask`: a `ctkAbstractTask` plus query level, UIDs, a
borrowed server reference, and the owned `ctkDICOMQuery` driver (of which we
track the `Filters` it received via `setFilters` and its cooperative
`Canceled` flag). -/
structure ctkDICOMQueryTask extends ctkAbstractTask where
  Server : Option ctkDICOMServer := none
  QueryLevel : QueryDICOMLevel := .Studies
  PatientID : String := ""
  StudyInstanceUID : String := ""
  SeriesInstanceUID : String := ""
  QueryFilters : List (String × QVariant) := []
  QueryCanceled : Bool := false

/-- The `ctkDICOMQueryTask` constructor (flags from `ctkAbstractTask`'s
constructor, level default `Studies`, empty UIDs). -/
def ctkDICOMQueryTask.init : ctkDICOMQueryTask :=
  { toctkAbstractTask := ctkAbstractTask.init }

/-- `ctkDICOMQueryTask::setStop`: sets the flag and cancels the driver. -/
def ctkDICOMQueryTask.setStop (t : ctkDICOMQueryTask) (stop : Bool) :
    ctkDICOMQueryTask :=
  { t with Stop := stop, QueryCanceled := true }

/-- `ctkDICOMRetrieveTask`: a `ctkAbstractTask` plus retrieve level, UIDs, a
borrowed server reference, and the owned `ctkDICOMRetrieve` driver (of which
we track its `LastRetrieveType` and its cooperative `Canceled` flag). -/
structure ctkDICOMRetrieveTask extends ctkAbstractTask where
  Server : Option ctkDICOMServer := none
  RetrieveLevel : RetrieveDICOMLevel := .Studies
  StudyInstanceUID : String := ""
  SeriesInstanceUID : String := ""
  SOPInstanceUID : String := ""
  RetrieverLastRetrieveType : RetrieveType := .RetrieveNone
  RetrieverCanceled : Bool := false

/-- The `ctkDICOMRetrieveTask` constructor (fresh driver: no retrieve
performed yet). -/
def ctkDICOMRetrieveTask.init : ctkDICOMRetrieveTask :=
  { toctkAbstractTask := ctkAbstractTask.init }

/-- `ctkDICOMRetrieveTask::setStop`: sets the flag and cancels the driver. -/
def ctkDICOMRetrieveTask.setStop (t : ctkDICOMRetrieveTask) (stop : Bool) :
    ctkDICOMRetrieveTask :=
  { t with Stop := stop, RetrieverCanceled := true }

/-- The queued notifications a task can emit. -/
inductive TaskSignal where
  | started
  | finished
  | canceled
  deriving DecidableEq, Repr

/-- `ctkDICOMQueryTask::run`, with the outcome of the driver call
(`ctkDICOMQuery::queryPatients/queryStudies/querySeries/queryInstances`)
supplied as an oracle per level.  Returns the task after the flag updates
and the list of emitted signals, in order. -/
def ctkDICOMQueryTask.run (t : ctkDICOMQueryTask)
    (driverOk : QueryDICOMLevel → Bool) :
    ctkDICOMQueryTask × List TaskSignal :=
  if t.Stop then
    ({ t with toctkAbstractTask := t.toctkAbstractTask.setIsFinished true },
     [.canceled])
  else
    let t := { t with toctkAbstractTask := t.toctkAbstractTask.setIsRunning true }
    let ok :=
      match t.QueryLevel with
      | .Patients => driverOk .Patients
      | .Studies => driverOk .Studies
      | .Series => driverOk .Series
      | .Instances => driverOk .Instances
    if ok then
      ({ t with toctkAbstractTask := t.toctkAbstractTask.setIsFinished true },
       [.started, .finished])
    else
      ({ t with toctkAbstractTask := t.toctkAbstractTask.setIsFinished true },
       [.started, .canceled])

/-- `ctkDICOMRetrieveTask::run`, with the outcome of the driver call
(`getStudy/getSeries/getSOPInstance` or `moveStudy/moveSeries/moveSOPInstance`)
supplied as an oracle per protocol and level. -/
def ctkDICOMRetrieveTask.run (t : ctkDICOMRetrieveTask)
    (driverOk : RetrieveProtocol → RetrieveDICOMLevel → Bool) :
    ctkDICOMRetrieveTask × List TaskSignal :=
  if t.Stop || t.Server.isNone then
    ({ t with toctkAbstractTask := t.toctkAbstractTask.setIsFinished true },
     [.canceled])
  else
    let t := { t with toctkAbstractTask := t.toctkAbstractTask.setIsRunning true }
    let ok :=
      match t.Server.map ctkDICOMServer.retrieveProtocol with
      | some .CGET =>
          match t.RetrieveLevel with
          | .Studies => driverOk .CGET .Studies
          | .Series => driverOk .CGET .Series
          | .Instances => driverOk .CGET .Instances
      | some .CMOVE =>
          match t.RetrieveLevel with
          | .Studies => driverOk .CMOVE .Studies
          | .Series => driverOk .CMOVE .Series
          | .Instances => driverOk .CMOVE .Instances
      | none => true
    if ok then
      ({ t with toctkAbstractTask := t.toctkAbstractTask.setIsFinished true },
       [.started, .finished])
    else
      ({ t with toctkAbstractTask := t.toctkAbstractTask.setIsFinished true },
       [.started, .canceled])

/-! ## `ctkDICOMQuery::applyFilters` (Libs/DICOM/Core/ctkDICOMQuery.cpp)

The filter map is a `QMap<QString, QVariant>`; iteration over `keys()` is in
ascending key order, so callers of this model pass the entries sorted by key
(for the properties proved below the processing order of distinct keys is
immaterial).  The function mutates the find-request dataset `d->Query` and
returns the remembered series description. -/

/-- One step of the key loop of `ctkDICOMQuery::applyFilters`: `ds` is the
find-request dataset so far, `sd` the remembered series description. -/
def applyFiltersStep (acc : DcmContent × String) (kv : String × QVariant) :
    DcmContent × String :=
  let (ds, sd) := acc
  let (key, v) := kv
  if key = "Name" ∧ v.toQString ≠ "" then
    (dcmPut ds "DCM_PatientName" ("*" ++ v.toQString ++ "*"), sd)
  else if key = "Study" ∧ v.toQString ≠ "" then
    (dcmPut ds "DCM_StudyDescription" ("*" ++ v.toQString ++ "*"), sd)
  else if key = "ID" ∧ v.toQString ≠ "" then
    (dcmPut ds "DCM_PatientID" ("*" ++ v.toQString ++ "*"), sd)
  else if key = "AccessionNumber" ∧ v.toQString ≠ "" then
    (dcmPut ds "DCM_AccessionNumber" ("*" ++ v.toQString ++ "*"), sd)
  else if key = "Modalities" ∧ v.toQString ≠ "" then
    -- modalitySearch: join the string list with a trailing backslash each,
    -- then chop the final backslash
    let modalitySearch :=
      (v.toQStringList.foldl (fun a m => a ++ m ++ "\\") "").dropRight 1
    (dcmPut ds "DCM_ModalitiesInStudy" modalitySearch, sd)
  else if key = "Series" ∧ v.toQString ≠ "" then
    (ds, "*" ++ v.toQString ++ "*")
  else
    -- unknown search keys are ignored (debug log only)
    (ds, sd)

/-- `ctkDICOMQuery::applyFilters`, acting on the find-request dataset `ds`
and the filter entries (in ascending key order).  After the key loop, a
`StudyDate` range is inserted when both `StartDate` and `EndDate` keys are
present. -/
def applyFilters (ds : DcmContent) (filters : List (String × QVariant)) :
    DcmContent × String :=
  let (ds, seriesDescription) := filters.foldl applyFiltersStep (ds, "")
  let keys := filters.map Prod.fst
  let ds :=
    if keys.contains "StartDate" ∧ keys.contains "EndDate" then
      let dateRange :=
        ((filters.lookup "StartDate").getD (.str "")).toQString ++ "-" ++
        ((filters.lookup "EndDate").getD (.str "")).toQString
      dcmPut ds "DCM_StudyDate" dateRange
    else ds
  (ds, seriesDescription)

/-! ## `ctkDICOMSeriesItemWidgetPrivate::getDICOMCenterFrameFromInstances`
(Libs/DICOM/Widgets/ctkDICOMSeriesItemWidget.cpp)

The DICOM database collaborator is abstracted as the lookup
`instanceNumberOf : String → String` giving the `InstanceNumber` (tag
0020,0013) value stored for each instance UID (`instanceValue`).
`QMap<int, QString>::keys()` already yields ascending keys and the
subsequent `std::sort` keeps them ascending, so the model sorts the
collected keys once with insertion sort. -/

/-- The `InstanceNumber` an instance contributes to the central-frame map:
the stored string parsed by `QString::toInt`, 0 when the attribute is
absent. -/
def parsedInstanceNumber (instanceNumberOf : String → String)
    (instanceItem : String) : Int :=
  let instanceNumberString := instanceNumberOf instanceItem
  if instanceNumberString ≠ "" then qStringToInt instanceNumberString else 0

def getDICOMCenterFrameFromInstances (instanceNumberOf : String → String)
    (instancesList : List String) : String :=
  if instancesList.length = 0 then ""
  else
    let dicomInstances := instancesList.foldl
      (fun m instanceItem =>
        let instanceNumberString := instanceNumberOf instanceItem
        let instanceNumber : Int :=
          if instanceNumberString ≠ "" then qStringToInt instanceNumberString
          else 0
        qmapSetInt m instanceNumber instanceItem)
      []
    if dicomInstances.length = 1 then instancesList.headI
    else
      let keys :=
        List.insertionSort (· ≤ ·) (dicomInstances.map Prod.fst)
      let centerFrameIndex := keys.length / 2
      if keys.length ≤ centerFrameIndex then instancesList.headI
      else
        let centerInstanceNumber := keys.getD centerFrameIndex 0
        qmapGetInt dicomInstances centerInstanceNumber

/-- The `QMap<int, QString>` built by the instance loop of
`getDICOMCenterFrameFromInstances` (named for the proofs; definitionally the
fold inside the function above). -/
def dicomInstancesMap (instanceNumberOf : String → String)
    (instancesList : List String) : List (Int × String) :=
  instancesList.foldl
    (fun m instanceItem =>
      qmapSetInt m (parsedInstanceNumber instanceNumberOf instanceItem)
        instanceItem)
    []

/-- `getDICOMCenterFrameFromInstances` with every `let` named through
`dicomInstancesMap` (definitionally equal; used to structure the proofs). -/
def getDICOMCenterFrameAlt (instanceNumberOf : String → String)
    (instancesList : List String) : String :=
  if instancesList.length = 0 then ""
  else if (dicomInstancesMap instanceNumberOf instancesList).length = 1 then
    instancesList.headI
  else if (List.insertionSort (· ≤ ·)
      ((dicomInstancesMap instanceNumberOf instancesList).map
        Prod.fst)).length ≤
      (List.insertionSort (· ≤ ·)
        ((dicomInstancesMap instanceNumberOf instancesList).map
          Prod.fst)).length / 2 then
    instancesList.headI
  else
    qmapGetInt (dicomInstancesMap instanceNumberOf instancesList)
      ((List.insertionSort (· ≤ ·)
          ((dicomInstancesMap instanceNumberOf instancesList).map
            Prod.fst)).getD
        ((List.insertionSort (· ≤ ·)
            ((dicomInstancesMap instanceNumberOf instancesList).map
              Prod.fst)).length / 2)
        0)

/-! ## `ctkDICOMTaskPool` / `ctkDICOMPoolManager` registry operations -/

/-- A task held in the scheduler registry, with its concrete subclass
(`qobject_cast` discrimination in the handlers). -/
inductive PoolTask where
  | query (q : ctkDICOMQueryTask)
  | retrieve (r : ctkDICOMRetrieveTask)

/-- The task UID of a registry entry. -/
def PoolTask.taskUID : PoolTask → Nat
  | .query q => q.TaskUID
  | .retrieve r => r.TaskUID

/-- Virtual `setTaskUID` (the retrieve override also forwards the UID to its
driver, which the model does not track separately). -/
def PoolTask.setTaskUID : PoolTask → Nat → PoolTask
  | .query q, uid => .query { q with TaskUID := uid }
  | .retrieve r, uid => .retrieve { r with TaskUID := uid }

/-- The scheduler state touched by the operations under verification.
`UidCounter` models `QUuid::createUuid` as a monotone counter: a freshly
generated UID differs from every UID generated before.  `PendingRetries`
holds tasks handed to `QTimer::singleShot(RetryDelay, taskRetry(task))`.
`Queued` is the set of runnables sitting in the `QThreadPool` queue, and
`StartedRuns` records every `ThreadPool->start(task, priority)` call. -/
structure ctkDICOMTaskPoolState where
  Tasks : List (Nat × PoolTask) := []
  Filters : List (String × QVariant) := []
  MaximumNumberOfRetry : Int := 3
  RetryDelay : Int := 100
  MaximumPatientsQuery : Int := 25
  UidCounter : Nat := 0
  PendingRetries : List PoolTask := []
  Queued : List Nat := []
  StartedRuns : List (Nat × QPriority) := []

/-- `ctkDICOMTaskPoolPrivate::generateUniqueTaskUID`. -/
def generateUniqueTaskUID (st : ctkDICOMTaskPoolState) :
    Nat × ctkDICOMTaskPoolState :=
  (st.UidCounter, { st with UidCounter := st.UidCounter + 1 })

/-- `QThreadPool::start(task, priority)`. -/
def threadPoolStart (st : ctkDICOMTaskPoolState) (uid : Nat)
    (priority : QPriority) : ctkDICOMTaskPoolState :=
  { st with Queued := st.Queued ++ [uid],
            StartedRuns := st.StartedRuns ++ [(uid, priority)] }

/-- `ctkDICOMTaskPool::deleteTask`: a missing UID is ignored; otherwise the
entry is removed from the registry (and deferred-deleted). -/
def ctkDICOMTaskPool.deleteTask (st : ctkDICOMTaskPoolState) (taskUID : Nat) :
    ctkDICOMTaskPoolState :=
  if (st.Tasks.lookup taskUID).isNone then st
  else { st with Tasks := st.Tasks.filter (fun p => p.1 ≠ taskUID) }

/-- `ctkDICOMTaskPool::getNthServer`: guard `id < 0 || id > size - 1`, then
`d->Servers[id]`. -/
def ctkDICOMTaskPool.getNthServer (servers : List ctkDICOMServer) (id : Int) :
    CxxResult (Option ctkDICOMServer) :=
  if id < 0 ∨ id > (servers.length : Int) - 1 then .ok none
  else
    match qListIndex servers id with
    | .ok s => .ok (some s)
    | .undefinedBehaviour => .undefinedBehaviour

/-- `ctkDICOMPoolManager::getNthServer`: guard `id < 0 || id > size`, then
`d->Servers[id]`. -/
def ctkDICOMPoolManager.getNthServer (servers : List ctkDICOMServer)
    (id : Int) : CxxResult (Option ctkDICOMServer) :=
  if id < 0 ∨ id > (servers.length : Int) then .ok none
  else
    match qListIndex servers id with
    | .ok s => .ok (some s)
    | .undefinedBehaviour => .undefinedBehaviour

/-- The skip condition of the retrieve branch of
`ctkDICOMTaskPool::stopTasks` (true means the task is left untouched). -/
def retrieveStopSkip (rt : ctkDICOMRetrieveTask)
    (studyInstanceUID seriesInstanceUID sopInstanceUID : String) : Bool :=
  rt.Finished ||
  rt.StudyInstanceUID ≠ studyInstanceUID ||
  (rt.SeriesInstanceUID ≠ "" && seriesInstanceUID ≠ "" &&
    rt.SeriesInstanceUID ≠ seriesInstanceUID) ||
  (rt.SOPInstanceUID ≠ "" && sopInstanceUID ≠ "" &&
    rt.SOPInstanceUID ≠ sopInstanceUID)

/-- The skip condition of the query branch of
`ctkDICOMTaskPool::stopTasks`. -/
def queryStopSkip (qt : ctkDICOMQueryTask)
    (studyInstanceUID seriesInstanceUID : String) : Bool :=
  qt.Finished ||
  qt.StudyInstanceUID ≠ studyInstanceUID ||
  (qt.SeriesInstanceUID ≠ "" && seriesInstanceUID ≠ "" &&
    qt.SeriesInstanceUID ≠ seriesInstanceUID)

/-- `ctkDICOMTaskPool::stopTasks(studyUID, seriesUID, sopUID)`: walks the
registry and calls `setStop(true)` on every matching not-finished task
(running tasks included — there is no `isRunning` test and no `tryTake` in
this variant; the thread-pool queue is untouched). -/
def ctkDICOMTaskPool.stopTasks (st : ctkDICOMTaskPoolState)
    (studyInstanceUID seriesInstanceUID sopInstanceUID : String) :
    ctkDICOMTaskPoolState :=
  { st with Tasks := st.Tasks.map (fun p =>
      (p.1,
        match p.2 with
        | .retrieve rt =>
            if retrieveStopSkip rt studyInstanceUID seriesInstanceUID
                sopInstanceUID then
              .retrieve rt
            else .retrieve (rt.setStop true)
        | .query qt =>
            if queryStopSkip qt studyInstanceUID seriesInstanceUID then
              .query qt
            else .query (qt.setStop true))) }

/-- `ctkDICOMPoolManager::stopTasks`: the older variant.  It additionally
skips running tasks, and a stopped task that could still be taken out of the
thread-pool queue (`tryTake`) is removed from queue and registry. -/
def ctkDICOMPoolManager.stopTasks (st : ctkDICOMTaskPoolState)
    (studyInstanceUID seriesInstanceUID sopInstanceUID : String) :
    ctkDICOMTaskPoolState :=
  st.Tasks.foldl
    (fun st p =>
      match p.2 with
      | .retrieve rt =>
          if rt.Running || retrieveStopSkip rt studyInstanceUID
              seriesInstanceUID sopInstanceUID then
            st
          else
            let st := { st with Tasks := st.Tasks.map (fun q =>
              if q.1 = p.1 then (q.1, .retrieve (rt.setStop true)) else q) }
            if st.Queued.contains rt.TaskUID then
              { ctkDICOMTaskPool.deleteTask st rt.TaskUID with
                  Queued := st.Queued.filter (fun u => u ≠ rt.TaskUID) }
            else st
      | .query qt =>
          if qt.Running || queryStopSkip qt studyInstanceUID
              seriesInstanceUID then
            st
          else
            let st := { st with Tasks := st.Tasks.map (fun q =>
              if q.1 = p.1 then (q.1, .query (qt.setStop true)) else q) }
            if st.Queued.contains qt.TaskUID then
              { ctkDICOMTaskPool.deleteTask st qt.TaskUID with
                  Queued := st.Queued.filter (fun u => u ≠ qt.TaskUID) }
            else st)
    st

/-- The query branch of `ctkDICOMTaskPool::taskCanceled`.  When the retry
budget is not exhausted and the task was not user-stopped, a new query task
is built (server, pool filters, level, study / series UID, retry counter +1;
note: the patient ID is not copied) and handed to
`QTimer::singleShot(RetryDelay, taskRetry(newTask))`; in every case the old
task is deleted from the registry. -/
def ctkDICOMTaskPool.taskCanceledQuery (st : ctkDICOMTaskPoolState)
    (qt : ctkDICOMQueryTask) : ctkDICOMTaskPoolState :=
  let taskUID := qt.TaskUID
  let st :=
    if qt.NumberOfRetry < st.MaximumNumberOfRetry ∧ qt.Stop = false then
      let newQueryTask : ctkDICOMQueryTask :=
        { ctkDICOMQueryTask.init with
            Server := qt.Server,
            QueryFilters := st.Filters,
            QueryLevel := qt.QueryLevel,
            StudyInstanceUID := qt.StudyInstanceUID,
            SeriesInstanceUID := qt.SeriesInstanceUID,
            NumberOfRetry := qt.NumberOfRetry + 1,
            TaskUID := taskUID }
      { st with PendingRetries := st.PendingRetries ++ [.query newQueryTask] }
    else
      -- `else if (!isStopped())` only logs and emits `progressTaskDetail(nullptr)`
      st
  ctkDICOMTaskPool.deleteTask st taskUID

/-- The retrieve branch of `ctkDICOMTaskPool::taskCanceled`. -/
def ctkDICOMTaskPool.taskCanceledRetrieve (st : ctkDICOMTaskPoolState)
    (rt : ctkDICOMRetrieveTask) : ctkDICOMTaskPoolState :=
  let taskUID := rt.TaskUID
  let st :=
    if rt.NumberOfRetry < st.MaximumNumberOfRetry ∧ rt.Stop = false then
      let newRetrieveTask : ctkDICOMRetrieveTask :=
        { ctkDICOMRetrieveTask.init with
            Server := rt.Server,
            RetrieveLevel := rt.RetrieveLevel,
            StudyInstanceUID := rt.StudyInstanceUID,
            SeriesInstanceUID := rt.SeriesInstanceUID,
            SOPInstanceUID := rt.SOPInstanceUID,
            NumberOfRetry := rt.NumberOfRetry + 1,
            TaskUID := taskUID }
      { st with
          PendingRetries := st.PendingRetries ++ [.retrieve newRetrieveTask] }
    else st
  ctkDICOMTaskPool.deleteTask st taskUID

/-- `ctkDICOMTaskPool::taskRetry(task, priority)` (invoked by the one-shot
timer; modelled from the spec: the retry is scheduled at LowPriority): a
fresh UID is generated, assigned to the task, the task is inserted in the
registry and started. -/
def ctkDICOMTaskPool.taskRetry (st : ctkDICOMTaskPoolState) (task : PoolTask)
    (priority : QPriority) : ctkDICOMTaskPoolState :=
  let (newTaskUID, st) := generateUniqueTaskUID st
  let task := task.setTaskUID newTaskUID
  let st := { st with Tasks :=
    (st.Tasks.filter (fun p => p.1 ≠ newTaskUID)) ++ [(newTaskUID, task)] }
  threadPoolStart st newTaskUID priority

/-- Outcome of the retrieve branch of `ctkDICOMTaskPool::taskFinished`:
the updated state, the `progressTaskDetail` emissions (with `none` for the
`nullptr` emission), the task-results lists forwarded to the Indexer, and
the chained proxy retrieve task, if one was created. -/
structure RetrieveFinishedOutcome where
  state : ctkDICOMTaskPoolState
  progressEmissions : List (Option ctkDICOMTaskResults)
  indexedResults : List ctkDICOMTaskResults
  chainedTask : Option ctkDICOMRetrieveTask

/-- The retrieve branch of `ctkDICOMTaskPool::taskFinished`.  For a CMOVE
server that was not user-stopped, each task result is emitted to the UI and,
when the server carries a query/retrieve-enabled proxy server, a new
retrieve task against the proxy is registered and started — at
`NormalPriority` when the new task's driver reports
`getLastRetrieveType() == RetrieveSOPInstance`, else at `LowPriority`.
Otherwise results (if any, and not stopped) go to the Indexer, else a
`nullptr` progress detail is emitted. -/
def ctkDICOMTaskPool.taskFinishedRetrieve (st : ctkDICOMTaskPoolState)
    (rt : ctkDICOMRetrieveTask)
    (taskResultsList : List ctkDICOMTaskResults) : RetrieveFinishedOutcome :=
  let isCmove : Bool :=
    match rt.Server with
    | some server => server.retrieveProtocol == RetrieveProtocol.CMOVE
    | none => false
  if isCmove && !rt.Stop then
    let progressEmissions := taskResultsList.map some
    match rt.Server.bind ctkDICOMServer.proxyServer with
    | some proxyServer =>
        if proxyServer.queryRetrieveEnabled then
          let (newTaskUID, st) := generateUniqueTaskUID st
          let newRetrieveTask : ctkDICOMRetrieveTask :=
            { ctkDICOMRetrieveTask.init with
                Server := some proxyServer,
                RetrieveLevel := rt.RetrieveLevel,
                StudyInstanceUID := rt.StudyInstanceUID,
                SeriesInstanceUID := rt.SeriesInstanceUID,
                SOPInstanceUID := rt.SOPInstanceUID,
                NumberOfRetry := rt.NumberOfRetry + 1,
                TaskUID := newTaskUID }
          let st := { st with Tasks :=
            (st.Tasks.filter (fun p => p.1 ≠ newTaskUID)) ++
              [(newTaskUID, .retrieve newRetrieveTask)] }
          let priority :=
            if newRetrieveTask.RetrieverLastRetrieveType =
                RetrieveType.RetrieveSOPInstance then
              QPriority.normal
            else QPriority.low
          let st := threadPoolStart st newTaskUID priority
          { state := st, progressEmissions := progressEmissions,
            indexedResults := [], chainedTask := some newRetrieveTask }
        else
          { state := st, progressEmissions := progressEmissions,
            indexedResults := [], chainedTask := none }
    | none =>
        { state := st, progressEmissions := progressEmissions,
          indexedResults := [], chainedTask := none }
  else if taskResultsList.length > 0 ∧ rt.Stop = false then
    { state := st, progressEmissions := [], indexedResults := taskResultsList,
      chainedTask := none }
  else
    { state := st, progressEmissions := [none], indexedResults := [],
      chainedTask := none }

/-! ## Claim-side (spec-worded) definitions and concrete inputs -/

/-- Spec-worded UID matching of a retrieve task against the `stopTasks`
filter triple: the study UID must agree, and the series / SOP filters match
when either side is empty or both agree. -/
def uidTripleMatchRetrieve (rt : ctkDICOMRetrieveTask)
    (studyInstanceUID seriesInstanceUID sopInstanceUID : String) : Bool :=
  (rt.StudyInstanceUID = studyInstanceUID) &&
  (rt.SeriesInstanceUID = "" || seriesInstanceUID = "" ||
    rt.SeriesInstanceUID = seriesInstanceUID) &&
  (rt.SOPInstanceUID = "" || sopInstanceUID = "" ||
    rt.SOPInstanceUID = sopInstanceUID)

/-- Spec-worded UID matching of a query task against the `stopTasks` filter
triple (query tasks carry no SOP instance UID). -/
def uidTripleMatchQuery (qt : ctkDICOMQueryTask)
    (studyInstanceUID seriesInstanceUID : String) : Bool :=
  (qt.StudyInstanceUID = studyInstanceUID) &&
  (qt.SeriesInstanceUID = "" || seriesInstanceUID = "" ||
    qt.SeriesInstanceUID = seriesInstanceUID)

/-- Number of terminal notifications (`finished` or `canceled`) in an
emission trace. -/
def finishedOrCanceledCount (sigs : List TaskSignal) : Nat :=
  sigs.count .finished + sigs.count .canceled

/-- A canceled query task with a non-empty patient ID (input for C3). -/
def c3Qt : ctkDICOMQueryTask :=
  { ctkDICOMQueryTask.init with
      PatientID := "P1", QueryLevel := .Studies, StudyInstanceUID := "ST1",
      TaskUID := 5 }

/-- A scheduler state registering `c3Qt` with a UID counter past its UID. -/
def c3St : ctkDICOMTaskPoolState :=
  { Tasks := [(5, .query c3Qt)], UidCounter := 6 }

/-- A queued retrieve task matching the filter triple `("S", "", "")`
(input for C4). -/
def c4Rt : ctkDICOMRetrieveTask :=
  { ctkDICOMRetrieveTask.init with StudyInstanceUID := "S", TaskUID := 7 }

/-- A scheduler state in which `c4Rt` is registered and still queued. -/
def c4St : ctkDICOMTaskPoolState :=
  { Tasks := [(7, .retrieve c4Rt)], UidCounter := 8, Queued := [7] }

/-- A CGET proxy server with query/retrieve enabled (input for C5). -/
def c5Proxy : ctkDICOMServer :=
  .mk "PACS2_GET" "CTK" "PACS2G" "pacs2.example" 11113 .CGET "" false true
    false none

/-- A CMOVE server carrying `c5Proxy` as its proxy server. -/
def c5Server : ctkDICOMServer :=
  .mk "PACS2" "CTK" "PACS2" "pacs2.example" 11112 .CMOVE "CTKSTORE" false true
    false (some c5Proxy)

/-- A finished SOP-instance-level retrieve task against `c5Server`. -/
def c5Rt : ctkDICOMRetrieveTask :=
  { ctkDICOMRetrieveTask.init with
      Server := some c5Server, RetrieveLevel := .Instances,
      StudyInstanceUID := "ST", SeriesInstanceUID := "SE",
      SOPInstanceUID := "SOP", TaskUID := 3 }

/-- A scheduler state registering `c5Rt`. -/
def c5St : ctkDICOMTaskPoolState :=
  { Tasks := [(3, .retrieve c5Rt)], UidCounter := 4 }

/-- Instance-number lookup for the C9 inputs: instances `A` and `B` share
`InstanceNumber` 1, instance `C` has 2. -/
def c9db (instanceItem : String) : String :=
  if instanceItem = "A" then "1"
  else if instanceItem = "B" then "1"
  else "2"

/-- Instance-number lookup for the C9 witness: instances `I1` … `I9` with
`InstanceNumber` 1 … 9. -/
def c9dbW (instanceItem : String) : String :=
  instanceItem.drop 1

/-- A registered server (input for C10). -/
def c10Server : ctkDICOMServer :=
  .mk "PACS1" "CTK" "PACS" "pacs.example" 11112 .CGET "" false true false none

/-- A worker-filled task result with full provenance and a dataset payload
(input for C1).  Its dataset lives in cell 0 of `c1Heap`. -/
def c1Node : ctkDICOMTaskResults :=
  { TaskUID := "task-1", ConnectionName := "PACS1", PatientID := "P1",
    StudyInstanceUID := "ST1", SeriesInstanceUID := "SE1",
    SOPInstanceUID := "SOP1", TypeOfTask := .QueryStudies, Dataset := some 0 }

/-- The heap holding `c1Node`'s dataset. -/
def c1Heap : DcmHeap := ⟨[[("DCM_Tag", "v0")]]⟩

/-- The ambient filesystem for C1 (irrelevant: `c1Node.FilePath` is empty,
so `setFilePath` never reads a file). -/
def c1fs : String → DcmContent := fun _ => []

/-- The copy produced by `deepCopy` for C1 and the heap it lives in. -/
def c1Copy : DcmHeap × ctkDICOMTaskResults :=
  ctkDICOMTaskResults.deepCopy c1fs c1Heap {} c1Node

/-- A user-stopped query task (input for the C2 witness). -/
def c2Qt : ctkDICOMQueryTask :=
  { ctkDICOMQueryTask.init with Stop := true, TaskUID := 9 }

/-- A scheduler state registering `c2Qt`. -/
def c2St : ctkDICOMTaskPoolState :=
  { Tasks := [(9, .query c2Qt)], UidCounter := 10 }

/-- The outcome of `taskFinished` on the CMOVE retrieve task `c5Rt`. -/
def c5Outcome : RetrieveFinishedOutcome :=
  ctkDICOMTaskPool.taskFinishedRetrieve c5St c5Rt []

/-! ## Helper lemmas -/

theorem lookup_none_key_ne {β : Type} (k : Nat) (l : List (Nat × β))
    (h : l.lookup k = none) : ∀ p ∈ l, p.1 ≠ k := by
  induction l with
  | nil => intro p hp; cases hp
  | cons q l ih =>
      obtain ⟨a, b⟩ := q
      by_cases hq : k = a
      · subst hq
        simp [List.lookup] at h
      · have hne : (k == a) = false := beq_eq_false_iff_ne.mpr hq
        intro p hp
        rcases List.mem_cons.mp hp with rfl | hp'
        · exact fun hh => hq hh.symm
        · refine ih ?_ p hp'
          simpa [List.lookup, hne] using h

theorem mem_filter_key_ne {β : Type} (k : Nat) (l : List (Nat × β)) :
    ∀ p ∈ l.filter (fun q => q.1 ≠ k), p.1 ≠ k := by
  intro p hp
  exact of_decide_eq_true (List.mem_filter.mp hp).2

theorem deleteTask_key_ne (st : ctkDICOMTaskPoolState) (uid : Nat) :
    ∀ p ∈ (ctkDICOMTaskPool.deleteTask st uid).Tasks, p.1 ≠ uid := by
  intro p hp
  unfold ctkDICOMTaskPool.deleteTask at hp
  by_cases h : (st.Tasks.lookup uid).isNone = true
  · rw [if_pos h] at hp
    exact lookup_none_key_ne uid st.Tasks (Option.isNone_iff_eq_none.mp h) p hp
  · rw [if_neg h] at hp
    exact mem_filter_key_ne uid st.Tasks p hp

theorem deleteTask_pendingRetries (st : ctkDICOMTaskPoolState) (uid : Nat) :
    (ctkDICOMTaskPool.deleteTask st uid).PendingRetries = st.PendingRetries := by
  unfold ctkDICOMTaskPool.deleteTask
  split <;> rfl

theorem deleteTask_uidCounter (st : ctkDICOMTaskPoolState) (uid : Nat) :
    (ctkDICOMTaskPool.deleteTask st uid).UidCounter = st.UidCounter := by
  unfold ctkDICOMTaskPool.deleteTask
  split <;> rfl

/-! ## Claim theorems -/

/-- C1 — `ctkDICOMTaskResults::deepCopy` copies `copyFile`,
`overwriteExistingDataset`, `typeOfTask`, `patientID`, `studyInstanceUID`,
`seriesInstanceUID`, `sopInstanceUID`, `connectionName` and `filePath` from
`other`, and the dataset payload is an independent deep copy (mutating
`other`'s original dataset cell leaves the copy's cell untouched) — but the
`taskUID` provenance field is set from `other`'s `filePath` instead of
`other`'s `taskUID` (`setTaskUID(node->filePath())`), so on a task result
with `taskUID = "task-1"` and an empty `filePath` the copy carries the empty
task UID.  This evaluates the code at that failing input. -/
theorem C1_deepCopy_taskUID_from_filePath :
    c1Copy.2.TaskUID = "" ∧ c1Node.TaskUID = "task-1" ∧
    c1Copy.2.FilePath = "" ∧ c1Copy.2.CopyFile = false ∧
    c1Copy.2.OverwriteExistingDataset = false ∧
    c1Copy.2.TypeOfTask = TaskType.QueryStudies ∧
    c1Copy.2.PatientID = "P1" ∧ c1Copy.2.StudyInstanceUID = "ST1" ∧
    c1Copy.2.SeriesInstanceUID = "SE1" ∧ c1Copy.2.SOPInstanceUID = "SOP1" ∧
    c1Copy.2.ConnectionName = "PACS1" ∧
    c1Copy.2.Dataset = some 1 ∧ c1Node.Dataset = some 0 ∧
    (c1Copy.1.write 0 [("DCM_Tag", "MUTATED")]).read 1 = [("DCM_Tag", "v0")] := by
  decide

/-- C6 (counterexample) — under arbitrary sequences of flag operations the
exclusion of `Finished` and `Running` fails: calling `setIsRunning(true)`
after `setIsFinished(true)` leaves both flags true. -/
theorem C6_counterexample_running_after_finished :
    (applyTaskFlagOps ctkAbstractTask.init
      [TaskFlagOp.setIsFinished true, TaskFlagOp.setIsRunning true]).Finished
        = true ∧
    (applyTaskFlagOps ctkAbstractTask.init
      [TaskFlagOp.setIsFinished true, TaskFlagOp.setIsRunning true]).Running
        = true := by
  decide

/-- C6 (amended) — for every task and every sequence of flag operations in
which `setIsRunning(true)` is only invoked on a not-yet-finished task (as on
every execution path in the repository), `Finished` and `Running` are never
true simultaneously; and `setIsFinished(true)` always leaves `Running` false
in the same operation. -/
theorem C6_finished_excludes_running (t : ctkAbstractTask)
    (ops : List TaskFlagOp)
    (hinv : ¬(t.Finished = true ∧ t.Running = true))
    (hguard : noRunAfterFinish t ops = true) :
    (¬((applyTaskFlagOps t ops).Finished = true ∧
       (applyTaskFlagOps t ops).Running = true)) ∧
    (∀ u : ctkAbstractTask, (u.setIsFinished true).Running = false) := by
  constructor
  · induction ops generalizing t with
    | nil => exact hinv
    | cons op ops ih =>
        rw [noRunAfterFinish, Bool.and_eq_true] at hguard
        obtain ⟨hg1, hg2⟩ := hguard
        refine ih _ ?_ hg2
        cases op with
        | setStop b =>
            simpa [applyTaskFlagOp, ctkAbstractTask.setStop] using hinv
        | setIsRunning b =>
            cases b with
            | false => simp [applyTaskFlagOp, ctkAbstractTask.setIsRunning]
            | true =>
                have hf : t.Finished = false := by
                  rcases Bool.or_eq_true _ _ |>.mp hg1 with h | h
                  · exact absurd rfl (of_decide_eq_true h)
                  · simpa using h
                simp [applyTaskFlagOp, ctkAbstractTask.setIsRunning, hf]
        | setIsFinished b =>
            cases b with
            | false => simp [applyTaskFlagOp, ctkAbstractTask.setIsFinished]
            | true =>
                cases hr : t.Running <;>
                  simp [applyTaskFlagOp, ctkAbstractTask.setIsFinished, hr]
  · intro u
    cases hr : u.Running <;> simp [ctkAbstractTask.setIsFinished, hr]

/-- C6 (witness) — the amended invariant applied to a fresh task and the
canonical run sequence. -/
theorem C6_finished_excludes_running_witness :
    (¬((applyTaskFlagOps ctkAbstractTask.init
          [TaskFlagOp.setIsRunning true, TaskFlagOp.setIsFinished true]).Finished
            = true ∧
       (applyTaskFlagOps ctkAbstractTask.init
          [TaskFlagOp.setIsRunning true, TaskFlagOp.setIsFinished true]).Running
            = true)) ∧
    (∀ u : ctkAbstractTask, (u.setIsFinished true).Running = false) :=
  C6_finished_excludes_running ctkAbstractTask.init
    [TaskFlagOp.setIsRunning true, TaskFlagOp.setIsFinished true]
    (by decide) (by decide)

/-- C7 — every execution of `run()` on a query task or a retrieve task
emits exactly one terminal notification (`finished` or `canceled`), on
every path: stopped before start, driver failure at any level and protocol,
and clean completion. -/
theorem C7_run_emits_one_terminal_signal :
    (∀ (t : ctkDICOMQueryTask) (driverOk : QueryDICOMLevel → Bool),
        finishedOrCanceledCount (t.run driverOk).2 = 1) ∧
    (∀ (t : ctkDICOMRetrieveTask)
        (driverOk : RetrieveProtocol → RetrieveDICOMLevel → Bool),
        finishedOrCanceledCount (t.run driverOk).2 = 1) := by
  constructor
  · intro t d
    unfold ctkDICOMQueryTask.run
    split
    · rfl
    · dsimp only
      split <;> rfl
  · intro t d
    unfold ctkDICOMRetrieveTask.run
    split
    · rfl
    · dsimp only
      split <;> rfl

/-- C8 — `applyFilters` on a `Modalities` entry holding the two-element list
`["CT", "MR"]` inserts no `ModalitiesInStudy` attribute at all: the guard
`!d->Filters[key].toString().isEmpty()` converts the `QStringList` variant
with `QVariant::toString`, which is empty for any list not of length one, so
the branch that joins the modalities with a backslash is skipped and the key
falls through to the ignored-key branch.  A one-element list is the only
shape that passes the guard.  This evaluates the code at the failing
input. -/
theorem C8_modalities_list_filter_dropped :
    ((applyFilters [] [("Modalities", QVariant.strList ["CT", "MR"])]).1.lookup
      "DCM_ModalitiesInStudy" = none) ∧
    ((applyFilters [] [("Modalities", QVariant.strList ["CT"])]).1.lookup
      "DCM_ModalitiesInStudy" = some "CT") := by
  decide

/-- C10 — `ctkDICOMTaskPool::getNthServer` returns null exactly outside
`[0, size - 1]` and the `id`-th server inside the range, while
`ctkDICOMPoolManager::getNthServer`'s guard `id < 0 || id > size` lets
`id = size` through to an out-of-bounds `d->Servers[id]` access (evaluated
here at one registered server and `id = 1`). -/
theorem C10_getNthServer_range :
    (∀ (servers : List ctkDICOMServer) (id : Int),
        id < 0 ∨ (servers.length : Int) ≤ id →
          ctkDICOMTaskPool.getNthServer servers id = .ok none) ∧
    (∀ (servers : List ctkDICOMServer) (id : Int)
        (h : id.toNat < servers.length), 0 ≤ id →
          ctkDICOMTaskPool.getNthServer servers id =
            .ok (some (servers.get ⟨id.toNat, h⟩))) ∧
    ctkDICOMPoolManager.getNthServer [c10Server] 1 = .undefinedBehaviour := by
  refine ⟨?_, ?_, ?_⟩
  · intro servers id h
    have hc : id < 0 ∨ id > (servers.length : Int) - 1 := by omega
    rw [ctkDICOMTaskPool.getNthServer, if_pos hc]
  · intro servers id h h0
    have hc : ¬(id < 0 ∨ id > (servers.length : Int) - 1) := by omega
    rw [ctkDICOMTaskPool.getNthServer, if_neg hc, qListIndex, dif_pos ⟨h0, h⟩]
  · rfl

/-- C10 (witness) — the range guard of the `ctkDICOMTaskPool` variant at
`id = -1` on the empty list and at `id = 0` on one server. -/
theorem C10_getNthServer_range_witness :
    ctkDICOMTaskPool.getNthServer [] (-1) = .ok none ∧
    ctkDICOMTaskPool.getNthServer [c10Server] 0 = .ok (some c10Server) :=
  ⟨C10_getNthServer_range.1 [] (-1) (Or.inl (by norm_num)),
   C10_getNthServer_range.2.1 [c10Server] 0 (by decide) (by norm_num)⟩

theorem taskCanceledQuery_key_ne (st : ctkDICOMTaskPoolState)
    (qt : ctkDICOMQueryTask) :
    ∀ p ∈ (ctkDICOMTaskPool.taskCanceledQuery st qt).Tasks,
      p.1 ≠ qt.TaskUID := by
  simp only [ctkDICOMTaskPool.taskCanceledQuery]
  exact deleteTask_key_ne _ qt.TaskUID

/-- C2 — on a task's `canceled` notification: a user-stopped task
(`isStopped()`) never produces a retry task and its UID leaves the registry;
a retry is handed to the one-shot timer exactly when the task is not
user-stopped and its retry counter is below `MaximumNumberOfRetry`, whose
constructed default is 3.  (Both the query and the retrieve branch of
`ctkDICOMTaskPool::taskCanceled`.) -/
theorem C2_taskCanceled_retry_policy :
    (∀ (st : ctkDICOMTaskPoolState) (qt : ctkDICOMQueryTask),
      (qt.Stop = true →
        (ctkDICOMTaskPool.taskCanceledQuery st qt).PendingRetries =
          st.PendingRetries ∧
        ∀ p ∈ (ctkDICOMTaskPool.taskCanceledQuery st qt).Tasks,
          p.1 ≠ qt.TaskUID) ∧
      ((∃ r, (ctkDICOMTaskPool.taskCanceledQuery st qt).PendingRetries =
          st.PendingRetries ++ [r]) ↔
        qt.Stop = false ∧ qt.NumberOfRetry < st.MaximumNumberOfRetry)) ∧
    (∀ (st : ctkDICOMTaskPoolState) (rt : ctkDICOMRetrieveTask),
      (rt.Stop = true →
        (ctkDICOMTaskPool.taskCanceledRetrieve st rt).PendingRetries =
          st.PendingRetries ∧
        ∀ p ∈ (ctkDICOMTaskPool.taskCanceledRetrieve st rt).Tasks,
          p.1 ≠ rt.TaskUID) ∧
      ((∃ r, (ctkDICOMTaskPool.taskCanceledRetrieve st rt).PendingRetries =
          st.PendingRetries ++ [r]) ↔
        rt.Stop = false ∧ rt.NumberOfRetry < st.MaximumNumberOfRetry)) ∧
    ({} : ctkDICOMTaskPoolState).MaximumNumberOfRetry = 3 := by
  refine ⟨?_, ?_, rfl⟩
  · intro st qt
    constructor
    · intro hstop
      have hc : ¬(qt.NumberOfRetry < st.MaximumNumberOfRetry ∧
          qt.Stop = false) := by
        rintro ⟨-, h⟩
        rw [hstop] at h
        cases h
      constructor
      · simp only [ctkDICOMTaskPool.taskCanceledQuery]
        rw [if_neg hc, deleteTask_pendingRetries]
      · simp only [ctkDICOMTaskPool.taskCanceledQuery]
        rw [if_neg hc]
        exact deleteTask_key_ne st qt.TaskUID
    · by_cases hcond : qt.NumberOfRetry < st.MaximumNumberOfRetry ∧
          qt.Stop = false
      · constructor
        · intro _
          exact ⟨hcond.2, hcond.1⟩
        · intro _
          refine ⟨PoolTask.query { ctkDICOMQueryTask.init with
            Server := qt.Server, QueryFilters := st.Filters,
            QueryLevel := qt.QueryLevel,
            StudyInstanceUID := qt.StudyInstanceUID,
            SeriesInstanceUID := qt.SeriesInstanceUID,
            NumberOfRetry := qt.NumberOfRetry + 1,
            TaskUID := qt.TaskUID }, ?_⟩
          simp only [ctkDICOMTaskPool.taskCanceledQuery]
          rw [if_pos hcond, deleteTask_pendingRetries]
      · constructor
        · rintro ⟨r, hr⟩
          exfalso
          simp only [ctkDICOMTaskPool.taskCanceledQuery] at hr
          rw [if_neg hcond, deleteTask_pendingRetries] at hr
          have hlen := congrArg List.length hr
          simp at hlen
        · rintro ⟨h1, h2⟩
          exact absurd ⟨h2, h1⟩ hcond
  · intro st rt
    constructor
    · intro hstop
      have hc : ¬(rt.NumberOfRetry < st.MaximumNumberOfRetry ∧
          rt.Stop = false) := by
        rintro ⟨-, h⟩
        rw [hstop] at h
        cases h
      constructor
      · simp only [ctkDICOMTaskPool.taskCanceledRetrieve]
        rw [if_neg hc, deleteTask_pendingRetries]
      · simp only [ctkDICOMTaskPool.taskCanceledRetrieve]
        rw [if_neg hc]
        exact deleteTask_key_ne st rt.TaskUID
    · by_cases hcond : rt.NumberOfRetry < st.MaximumNumberOfRetry ∧
          rt.Stop = false
      · constructor
        · intro _
          exact ⟨hcond.2, hcond.1⟩
        · intro _
          refine ⟨PoolTask.retrieve { ctkDICOMRetrieveTask.init with
            Server := rt.Server, RetrieveLevel := rt.RetrieveLevel,
            StudyInstanceUID := rt.StudyInstanceUID,
            SeriesInstanceUID := rt.SeriesInstanceUID,
            SOPInstanceUID := rt.SOPInstanceUID,
            NumberOfRetry := rt.NumberOfRetry + 1,
            TaskUID := rt.TaskUID }, ?_⟩
          simp only [ctkDICOMTaskPool.taskCanceledRetrieve]
          rw [if_pos hcond, deleteTask_pendingRetries]
      · constructor
        · rintro ⟨r, hr⟩
          exfalso
          simp only [ctkDICOMTaskPool.taskCanceledRetrieve] at hr
          rw [if_neg hcond, deleteTask_pendingRetries] at hr
          have hlen := congrArg List.length hr
          simp at hlen
        · rintro ⟨h1, h2⟩
          exact absurd ⟨h2, h1⟩ hcond

/-- C2 (witness) — the stopped branch applied to a user-stopped query task:
no retry is scheduled and UID 9 leaves the registry. -/
theorem C2_taskCanceled_retry_policy_witness :
    (ctkDICOMTaskPool.taskCanceledQuery c2St c2Qt).PendingRetries =
      c2St.PendingRetries ∧
    ∀ p ∈ (ctkDICOMTaskPool.taskCanceledQuery c2St c2Qt).Tasks,
      p.1 ≠ c2Qt.TaskUID :=
  (C2_taskCanceled_retry_policy.1 c2St c2Qt).1 rfl

/-- C3 (counterexample) — the retry task scheduled for the canceled query
task `c3Qt` (patient ID `"P1"`, studies level) carries an empty patient ID:
`taskCanceled` clones server, level, study / series UIDs and filters, but
never calls `setPatientID` on the replacement task. -/
theorem C3_counterexample_patientID_dropped :
    ((ctkDICOMTaskPool.taskCanceledQuery c3St c3Qt).PendingRetries.map
      (fun t => match t with
        | .query q => q.PatientID
        | .retrieve _ => "retrieve")) = [""] ∧
    c3Qt.PatientID = "P1" := by
  constructor
  · rfl
  · rfl

/-- C3 (amended) — the replacement task for a retried canceled query task
carries the same server, query level, study and series instance UID, the
scheduler's current filters, and `numberOfRetry + 1`, but its patient ID is
left at the empty default; the retry dispatch then assigns a freshly
generated UID distinct from the old one, registers the task under the new
UID, and the old UID is no longer in the registry. -/
theorem C3_retry_clone (st : ctkDICOMTaskPoolState) (qt : ctkDICOMQueryTask)
    (hstop : qt.Stop = false)
    (hretry : qt.NumberOfRetry < st.MaximumNumberOfRetry)
    (hfresh : qt.TaskUID < st.UidCounter) :
    ∃ r : ctkDICOMQueryTask,
      (ctkDICOMTaskPool.taskCanceledQuery st qt).PendingRetries =
        st.PendingRetries ++ [PoolTask.query r] ∧
      r.Server = qt.Server ∧ r.QueryLevel = qt.QueryLevel ∧
      r.StudyInstanceUID = qt.StudyInstanceUID ∧
      r.SeriesInstanceUID = qt.SeriesInstanceUID ∧
      r.QueryFilters = st.Filters ∧ r.PatientID = "" ∧
      r.NumberOfRetry = qt.NumberOfRetry + 1 ∧
      (ctkDICOMTaskPool.taskCanceledQuery st qt).UidCounter = st.UidCounter ∧
      (ctkDICOMTaskPool.taskCanceledQuery st qt).UidCounter ≠ qt.TaskUID ∧
      (ctkDICOMTaskPool.taskRetry (ctkDICOMTaskPool.taskCanceledQuery st qt)
          (PoolTask.query r) QPriority.low).Tasks =
        ((ctkDICOMTaskPool.taskCanceledQuery st qt).Tasks.filter
            (fun p => p.1 ≠
              (ctkDICOMTaskPool.taskCanceledQuery st qt).UidCounter)) ++
          [((ctkDICOMTaskPool.taskCanceledQuery st qt).UidCounter,
            PoolTask.query { r with TaskUID :=
              (ctkDICOMTaskPool.taskCanceledQuery st qt).UidCounter })] ∧
      (∀ p ∈ (ctkDICOMTaskPool.taskRetry
          (ctkDICOMTaskPool.taskCanceledQuery st qt)
          (PoolTask.query r) QPriority.low).Tasks, p.1 ≠ qt.TaskUID) := by
  have hcond : qt.NumberOfRetry < st.MaximumNumberOfRetry ∧ qt.Stop = false :=
    ⟨hretry, hstop⟩
  have huid : (ctkDICOMTaskPool.taskCanceledQuery st qt).UidCounter =
      st.UidCounter := by
    simp only [ctkDICOMTaskPool.taskCanceledQuery]
    rw [if_pos hcond, deleteTask_uidCounter]
  refine ⟨{ ctkDICOMQueryTask.init with
      Server := qt.Server, QueryFilters := st.Filters,
      QueryLevel := qt.QueryLevel, StudyInstanceUID := qt.StudyInstanceUID,
      SeriesInstanceUID := qt.SeriesInstanceUID,
      NumberOfRetry := qt.NumberOfRetry + 1, TaskUID := qt.TaskUID },
    ?_, rfl, rfl, rfl, rfl, rfl, rfl, rfl, huid, by rw [huid]; omega, ?_, ?_⟩
  · simp only [ctkDICOMTaskPool.taskCanceledQuery]
    rw [if_pos hcond, deleteTask_pendingRetries]
  · simp only [ctkDICOMTaskPool.taskRetry, generateUniqueTaskUID,
      threadPoolStart, PoolTask.setTaskUID]
  · intro p hp
    simp only [ctkDICOMTaskPool.taskRetry, generateUniqueTaskUID,
      threadPoolStart] at hp
    rcases List.mem_append.mp hp with hl | hr
    · exact taskCanceledQuery_key_ne st qt p (List.mem_filter.mp hl).1
    · rcases List.mem_singleton.mp hr with rfl
      show (ctkDICOMTaskPool.taskCanceledQuery st qt).UidCounter ≠ qt.TaskUID
      rw [huid]
      omega

/-- C3 (witness) — the amended retry characterisation applied to `c3Qt`
registered in `c3St`. -/
theorem C3_retry_clone_witness :
    ∃ r : ctkDICOMQueryTask,
      (ctkDICOMTaskPool.taskCanceledQuery c3St c3Qt).PendingRetries =
        c3St.PendingRetries ++ [PoolTask.query r] ∧
      r.Server = c3Qt.Server ∧ r.QueryLevel = c3Qt.QueryLevel ∧
      r.StudyInstanceUID = c3Qt.StudyInstanceUID ∧
      r.SeriesInstanceUID = c3Qt.SeriesInstanceUID ∧
      r.QueryFilters = c3St.Filters ∧ r.PatientID = "" ∧
      r.NumberOfRetry = c3Qt.NumberOfRetry + 1 ∧
      (ctkDICOMTaskPool.taskCanceledQuery c3St c3Qt).UidCounter =
        c3St.UidCounter ∧
      (ctkDICOMTaskPool.taskCanceledQuery c3St c3Qt).UidCounter ≠
        c3Qt.TaskUID ∧
      (ctkDICOMTaskPool.taskRetry
          (ctkDICOMTaskPool.taskCanceledQuery c3St c3Qt)
          (PoolTask.query r) QPriority.low).Tasks =
        ((ctkDICOMTaskPool.taskCanceledQuery c3St c3Qt).Tasks.filter
            (fun p => p.1 ≠
              (ctkDICOMTaskPool.taskCanceledQuery c3St c3Qt).UidCounter)) ++
          [((ctkDICOMTaskPool.taskCanceledQuery c3St c3Qt).UidCounter,
            PoolTask.query { r with TaskUID :=
              (ctkDICOMTaskPool.taskCanceledQuery c3St c3Qt).UidCounter })] ∧
      (∀ p ∈ (ctkDICOMTaskPool.taskRetry
          (ctkDICOMTaskPool.taskCanceledQuery c3St c3Qt)
          (PoolTask.query r) QPriority.low).Tasks, p.1 ≠ c3Qt.TaskUID) :=
  C3_retry_clone c3St c3Qt rfl (by decide) (by decide)

theorem retrieveStopSkip_eq (rt : ctkDICOMRetrieveTask) (s se so : String) :
    retrieveStopSkip rt s se so =
      (rt.Finished || !uidTripleMatchRetrieve rt s se so) := by
  unfold retrieveStopSkip uidTripleMatchRetrieve
  simp only [ne_eq, decide_not]
  generalize rt.Finished = f
  generalize decide (rt.StudyInstanceUID = s) = a
  generalize decide (rt.SeriesInstanceUID = "") = p
  generalize decide (se = "") = q
  generalize decide (rt.SeriesInstanceUID = se) = b
  generalize decide (rt.SOPInstanceUID = "") = u
  generalize decide (so = "") = w
  generalize decide (rt.SOPInstanceUID = so) = c
  revert f a p q b u w c
  decide

theorem queryStopSkip_eq (qt : ctkDICOMQueryTask) (s se : String) :
    queryStopSkip qt s se = (qt.Finished || !uidTripleMatchQuery qt s se) := by
  unfold queryStopSkip uidTripleMatchQuery
  simp only [ne_eq, decide_not]
  generalize qt.Finished = f
  generalize decide (qt.StudyInstanceUID = s) = a
  generalize decide (qt.SeriesInstanceUID = "") = p
  generalize decide (se = "") = q
  generalize decide (qt.SeriesInstanceUID = se) = b
  revert f a p q b
  decide

/-- C4 (counterexample) — `ctkDICOMTaskPool::stopTasks` never calls
`tryTake`: the matching, not-finished, still-queued retrieve task `c4Rt`
(UID 7) is still in the thread-pool queue after
`stopTasks("S", "", "")`, where the claim requires its removal. -/
theorem C4_counterexample_queued_task_not_removed :
    (ctkDICOMTaskPool.stopTasks c4St "S" "" "").Queued = [7] ∧
    c4St.Queued = [7] ∧
    uidTripleMatchRetrieve c4Rt "S" "" "" = true ∧
    c4Rt.Finished = false ∧ c4Rt.Running = false ∧ c4Rt.TaskUID = 7 :=
  ⟨rfl, rfl, by decide, rfl, rfl, rfl⟩

/-- C4 (amended) — `ctkDICOMTaskPool::stopTasks(studyUID, seriesUID,
sopUID)` sets `Stop = true` (and cancels the driver) on exactly the
registered not-yet-finished query and retrieve tasks whose UIDs match the
filter triple — running tasks included — and leaves every non-matching
task, the thread-pool queue, the pending retries and the start log
unchanged; still-queued matching tasks are not removed from the pool (the
`tryTake` removal exists only in the older `ctkDICOMPoolManager`
variant). -/
theorem C4_stopTasks_marks_exactly_matching (st : ctkDICOMTaskPoolState)
    (s se so : String) :
    (ctkDICOMTaskPool.stopTasks st s se so).Queued = st.Queued ∧
    (ctkDICOMTaskPool.stopTasks st s se so).PendingRetries =
      st.PendingRetries ∧
    (ctkDICOMTaskPool.stopTasks st s se so).StartedRuns = st.StartedRuns ∧
    (ctkDICOMTaskPool.stopTasks st s se so).Tasks =
      st.Tasks.map (fun p =>
        (p.1,
          match p.2 with
          | .retrieve rt =>
              if rt.Finished = false ∧
                  uidTripleMatchRetrieve rt s se so = true then
                .retrieve (rt.setStop true)
              else .retrieve rt
          | .query qt =>
              if qt.Finished = false ∧ uidTripleMatchQuery qt s se = true then
                .query (qt.setStop true)
              else .query qt)) := by
  refine ⟨rfl, rfl, rfl, ?_⟩
  unfold ctkDICOMTaskPool.stopTasks
  dsimp only
  congr 1
  funext p
  obtain ⟨uid, task⟩ := p
  cases task with
  | retrieve rt =>
      dsimp only
      rw [retrieveStopSkip_eq]
      by_cases hf : rt.Finished = true
      · simp [hf]
      · rw [Bool.not_eq_true] at hf
        by_cases hm : uidTripleMatchRetrieve rt s se so = true
        · simp [hf, hm]
        · rw [Bool.not_eq_true] at hm
          simp [hf, hm]
  | query qt =>
      dsimp only
      rw [queryStopSkip_eq]
      by_cases hf : qt.Finished = true
      · simp [hf]
      · rw [Bool.not_eq_true] at hf
        by_cases hm : uidTripleMatchQuery qt s se = true
        · simp [hf, hm]
        · rw [Bool.not_eq_true] at hm
          simp [hf, hm]

/-- C5 — when the CMOVE retrieve task `c5Rt` (SOP-instance level, proxy
server `PACS2_GET` with query/retrieve enabled) finishes un-stopped, the
scheduler registers and starts one retrieve task against the proxy with the
same level and UIDs, `numberOfRetry + 1` and a fresh task UID — but it is
started at `LowPriority`, not `NormalPriority`: the priority check reads
`getLastRetrieveType()` of the freshly constructed driver, which is still
`RetrieveNone`, instead of the new task's retrieve level.  This evaluates
the code at that failing input. -/
theorem C5_proxy_chain_started_at_low_priority :
    (c5Outcome.chainedTask.map (fun t => t.RetrieveLevel) =
      some RetrieveDICOMLevel.Instances) ∧
    (c5Outcome.chainedTask.map (fun t => t.StudyInstanceUID) = some "ST") ∧
    (c5Outcome.chainedTask.map (fun t => t.SeriesInstanceUID) = some "SE") ∧
    (c5Outcome.chainedTask.map (fun t => t.SOPInstanceUID) = some "SOP") ∧
    (c5Outcome.chainedTask.map (fun t => t.NumberOfRetry) = some 1) ∧
    (c5Outcome.chainedTask.map (fun t => t.TaskUID) = some 4) ∧
    (c5Outcome.chainedTask.map
        (fun t => t.Server.map ctkDICOMServer.connectionName) =
      some (some "PACS2_GET")) ∧
    (c5Outcome.chainedTask.map (fun t => t.RetrieverLastRetrieveType) =
      some RetrieveType.RetrieveNone) ∧
    (c5Outcome.state.Tasks.map Prod.fst = [3, 4]) ∧
    c5Rt.TaskUID = 3 ∧ c5Rt.RetrieveLevel = RetrieveDICOMLevel.Instances ∧
    (c5Outcome.state.StartedRuns = [(4, QPriority.low)]) ∧
    QPriority.low ≠ QPriority.normal :=
  ⟨rfl, rfl, rfl, rfl, rfl, rfl, rfl, rfl, rfl, rfl, rfl, rfl, by decide⟩

theorem getDICOMCenterFrame_eq_alt (instanceNumberOf : String → String)
    (instancesList : List String) :
    getDICOMCenterFrameFromInstances instanceNumberOf instancesList =
      getDICOMCenterFrameAlt instanceNumberOf instancesList := rfl

theorem foldl_qmapSetInt_nodup (f : String → String) (l : List String) :
    ∀ acc : List (Int × String),
      ((acc.map Prod.fst) ++ l.map (parsedInstanceNumber f)).Nodup →
      l.foldl
          (fun m i => qmapSetInt m (parsedInstanceNumber f i) i) acc =
        acc ++ l.map (fun i => (parsedInstanceNumber f i, i)) := by
  induction l with
  | nil =>
      intro acc _
      simp
  | cons x xs ih =>
      intro acc hnd
      have hx : parsedInstanceNumber f x ∉ acc.map Prod.fst := by
        intro hmem
        have hdisj := (List.nodup_append.mp hnd).2.2
        exact hdisj hmem (by simp)
      have hfilter :
          acc.filter (fun p => p.1 ≠ parsedInstanceNumber f x) = acc := by
        refine List.filter_eq_self.mpr ?_
        intro p hp
        refine decide_eq_true ?_
        intro he
        exact hx (he ▸ List.mem_map_of_mem Prod.fst hp)
      rw [List.foldl_cons]
      have hstep :
          qmapSetInt acc (parsedInstanceNumber f x) x =
            acc ++ [(parsedInstanceNumber f x, x)] := by
        unfold qmapSetInt
        rw [hfilter]
      rw [hstep]
      rw [ih (acc ++ [(parsedInstanceNumber f x, x)]) ?_]
      · simp
      · simpa [List.append_assoc] using hnd

theorem qmapGetInt_pairs (f : String → String) (k : Int) :
    ∀ l : List String, (∃ y ∈ l, parsedInstanceNumber f y = k) →
      ∃ z ∈ l, parsedInstanceNumber f z = k ∧
        qmapGetInt (l.map (fun i => (parsedInstanceNumber f i, i))) k = z := by
  intro l
  induction l with
  | nil =>
      rintro ⟨y, hy, -⟩
      cases hy
  | cons i l' ih =>
      rintro ⟨y, hy, hk⟩
      by_cases hi : parsedInstanceNumber f i = k
      · refine ⟨i, List.mem_cons_self i l', hi, ?_⟩
        unfold qmapGetInt
        rw [List.map_cons, List.find?_cons_of_pos _ (by simpa using hi)]
        rfl
      · have hy' : y ∈ l' := by
          rcases List.mem_cons.mp hy with rfl | h
          · exact absurd hk hi
          · exact h
        obtain ⟨z, hz, hzk, hq⟩ := ih ⟨y, hy', hk⟩
        refine ⟨z, List.mem_cons_of_mem i hz, hzk, ?_⟩
        unfold qmapGetInt at hq ⊢
        rw [List.map_cons, List.find?_cons_of_neg _ (by simpa using hi)]
        exact hq

/-- C9 (counterexample) — with duplicate `InstanceNumber`s the claimed index
rule fails: for instances `A, B, C` numbered `1, 1, 2`, the code collapses
the duplicates in its `QMap` and returns `C` (`InstanceNumber` 2), while the
index-`⌊3/2⌋` element of the ascending `InstanceNumber` ordering `[1, 1, 2]`
is 1. -/
theorem C9_counterexample_duplicate_instance_numbers :
    getDICOMCenterFrameFromInstances c9db ["A", "B", "C"] = "C" ∧
    parsedInstanceNumber c9db "C" = 2 ∧
    (List.insertionSort (· ≤ ·)
        (["A", "B", "C"].map (parsedInstanceNumber c9db))).getD
      (["A", "B", "C"].length / 2) 0 = 1 ∧
    (2 : Int) ≠ 1 := by
  refine ⟨rfl, rfl, ?_, by decide⟩
  decide

/-- C9 (amended) — for every non-empty instance list whose `InstanceNumber`s
are pairwise distinct (in particular for every single-instance series),
central-frame selection returns an instance of the list whose
`InstanceNumber` sits at index `⌊count/2⌋` of the ascending `InstanceNumber`
ordering; a single-instance list returns its head.  (With duplicate
`InstanceNumber`s the code instead indexes the ascending list of distinct
values and returns the last-inserted instance carrying that value, see the
counterexample.) -/
theorem C9_center_frame_distinct (f : String → String) (l : List String)
    (hne : l ≠ [])
    (hnd : (l.map (parsedInstanceNumber f)).Nodup) :
    ∃ x, getDICOMCenterFrameFromInstances f l = x ∧ x ∈ l ∧
      parsedInstanceNumber f x =
        (List.insertionSort (· ≤ ·) (l.map (parsedInstanceNumber f))).getD
          (l.length / 2) 0 ∧
      (l.length = 1 → x = l.headI) := by
  have hmap : dicomInstancesMap f l =
      l.map (fun i => (parsedInstanceNumber f i, i)) := by
    unfold dicomInstancesMap
    refine foldl_qmapSetInt_nodup f l [] ?_
    simpa using hnd
  have hfst : (l.map (fun i => (parsedInstanceNumber f i, i))).map Prod.fst =
      l.map (parsedInstanceNumber f) := by
    rw [List.map_map]
    rfl
  have hlen : ¬ l.length = 0 := fun h => hne (List.length_eq_zero.mp h)
  rw [getDICOMCenterFrame_eq_alt]
  unfold getDICOMCenterFrameAlt
  rw [hmap, hfst, if_neg hlen, List.length_map]
  by_cases h1 : l.length = 1
  · rw [if_pos h1]
    obtain ⟨x, rfl⟩ := List.length_eq_one.mp h1
    refine ⟨x, rfl, List.mem_singleton_self x, ?_, fun _ => rfl⟩
    simp [List.insertionSort]
  · rw [if_neg h1]
    have hslen : (List.insertionSort (· ≤ ·)
        (l.map (parsedInstanceNumber f))).length = l.length := by
      rw [List.length_insertionSort, List.length_map]
    rw [hslen]
    have hlen2 : 2 ≤ l.length := by
      rcases Nat.lt_or_ge l.length 2 with h | h
      · interval_cases hl : l.length <;> simp_all
      · exact h
    rw [if_neg (by omega)]
    have hidx : l.length / 2 <
        (List.insertionSort (· ≤ ·) (l.map (parsedInstanceNumber f))).length := by
      rw [hslen]
      omega
    have hgetD : (List.insertionSort (· ≤ ·)
          (l.map (parsedInstanceNumber f))).getD (l.length / 2) 0 =
        (List.insertionSort (· ≤ ·) (l.map (parsedInstanceNumber f))).get
          ⟨l.length / 2, hidx⟩ := by
      simp [List.getD_eq_getElem?_getD, List.getElem?_eq_getElem hidx]
    have hkmem : (List.insertionSort (· ≤ ·)
          (l.map (parsedInstanceNumber f))).getD (l.length / 2) 0 ∈
        l.map (parsedInstanceNumber f) := by
      refine (List.perm_insertionSort (· ≤ ·)
        (l.map (parsedInstanceNumber f))).subset ?_
      rw [hgetD]
      exact List.get_mem _ _ hidx
    obtain ⟨y, hy, hk⟩ := List.mem_map.mp hkmem
    obtain ⟨z, hz, hzk, hq⟩ :=
      qmapGetInt_pairs f
        ((List.insertionSort (· ≤ ·)
            (l.map (parsedInstanceNumber f))).getD (l.length / 2) 0)
        l ⟨y, hy, hk⟩
    exact ⟨z, hq, hz, hzk, fun hcon => absurd hcon h1⟩

/-- C9 (witness) — nine instances `I1` … `I9` with `InstanceNumber` 1 … 9:
the amended selection rule applied to them (the selected instance is `I5`,
index `⌊9/2⌋ = 4` of the ascending ordering). -/
theorem C9_center_frame_distinct_witness :
    ∃ x, getDICOMCenterFrameFromInstances c9dbW
        ["I1", "I2", "I3", "I4", "I5", "I6", "I7", "I8", "I9"] = x ∧
      x ∈ ["I1", "I2", "I3", "I4", "I5", "I6", "I7", "I8", "I9"] ∧
      parsedInstanceNumber c9dbW x =
        (List.insertionSort (· ≤ ·)
            (["I1", "I2", "I3", "I4", "I5", "I6", "I7", "I8", "I9"].map
              (parsedInstanceNumber c9dbW))).getD
          (["I1", "I2", "I3", "I4", "I5", "I6", "I7", "I8", "I9"].length / 2)
          0 ∧
      (["I1", "I2", "I3", "I4", "I5", "I6", "I7", "I8", "I9"].length = 1 →
        x = ["I1", "I2", "I3", "I4", "I5", "I6", "I7", "I8", "I9"].headI) :=
  C9_center_frame_distinct c9dbW
    ["I1", "I2", "I3", "I4", "I5", "I6", "I7", "I8", "I9"]
    (by decide) (by decide)

end CTK
